import Mathlib

/-!
Verification development for oslo_context/context.py, a request-context
carrier for OpenStack services.  The Python module is embedded shallowly:

* the attribute record stored by RequestContext becomes a Lean structure;
* the exported dictionaries become association lists over a PyValue type
  that covers the value shapes the module actually stores (None, string,
  bool, list of strings);
* the thread-local current-context registry becomes explicit state passing
  of an Option RequestContext slot through construction;
* the uuid4 entropy source consumed by generate_request_id becomes an
  explicit string argument, so every definition stays executable.
-/

/-- Value shapes stored in the dictionaries exported by the module:
Python None, a string, a bool, or a list of strings. -/
inductive PyValue where
  | vNone : PyValue
  | vStr : String → PyValue
  | vBool : Bool → PyValue
  | vList : List String → PyValue
deriving DecidableEq

/-- Embeds an optional string attribute as the Python value it denotes. -/
def optStr : Option String → PyValue
  | none => PyValue.vNone
  | some s => PyValue.vStr s

/-- The attribute record a RequestContext instance holds after
RequestContext.__init__ has run (context.py lines 90-111). -/
structure RequestContext where
  auth_token : Option String
  user : Option String
  user_name : Option String
  tenant : Option String
  project_name : Option String
  domain : Option String
  domain_name : Option String
  user_domain : Option String
  user_domain_name : Option String
  project_domain : Option String
  project_domain_name : Option String
  is_admin : Bool
  is_admin_project : Bool
  read_only : Bool
  show_deleted : Bool
  resource_uuid : Option String
  roles : List String
  request_id : String
deriving DecidableEq

/-- generate_request_id (context.py line 58): the req- prefix applied to a
fresh uuid4 rendered as text; the uuid source is an explicit argument u. -/
def generate_request_id (u : String) : String := "req-" ++ u

/-- The keyword-argument set of RequestContext.__init__ with its Python
defaults (context.py lines 74-80).  Optional parameters keep their
Option shape; request_id stays optional because the constructor treats
absence and the empty string alike. -/
structure CtorArgs where
  auth_token : Option String := none
  user : Option String := none
  tenant : Option String := none
  domain : Option String := none
  user_domain : Option String := none
  project_domain : Option String := none
  is_admin : Bool := false
  read_only : Bool := false
  show_deleted : Bool := false
  request_id : Option String := none
  resource_uuid : Option String := none
  overwrite : Bool := true
  roles : Option (List String) := none
  user_name : Option String := none
  project_name : Option String := none
  domain_name : Option String := none
  user_domain_name : Option String := none
  project_domain_name : Option String := none
  is_admin_project : Bool := true
deriving DecidableEq

/-- The attribute record built by RequestContext.__init__ (context.py lines
90-111): every field is copied verbatim except roles, where a falsy value
(absent or empty list) becomes the empty list, and request_id, where a
falsy value (absent or empty string) is replaced by a generated id. -/
def RequestContext.mkCtx (u : String) (a : CtorArgs) : RequestContext where
  auth_token := a.auth_token
  user := a.user
  user_name := a.user_name
  tenant := a.tenant
  project_name := a.project_name
  domain := a.domain
  domain_name := a.domain_name
  user_domain := a.user_domain
  user_domain_name := a.user_domain_name
  project_domain := a.project_domain
  project_domain_name := a.project_domain_name
  is_admin := a.is_admin
  is_admin_project := a.is_admin_project
  read_only := a.read_only
  show_deleted := a.show_deleted
  resource_uuid := a.resource_uuid
  roles := match a.roles with
    | none => []
    | some l => if l.isEmpty then [] else l
  request_id := match a.request_id with
    | none => generate_request_id u
    | some s => if s = "" then generate_request_id u else s

/-- RequestContext.__init__ together with its publication step (context.py
lines 112-113): the thread-local registry slot is the explicit store
argument; the instance is written to the slot when overwrite is true or
the slot holds no context (a stored context object is always truthy, so
the Python test "not get_current()" is exactly store.isNone). -/
def RequestContext.init (u : String) (a : CtorArgs) (store : Option RequestContext) :
    RequestContext × Option RequestContext :=
  let ctx := RequestContext.mkCtx u a
  (ctx, if a.overwrite || store.isNone then some ctx else store)

/-- The Python expression x or "-" used for each component of the
user_identity string (context.py lines 141-145): an absent or empty
string is replaced by the placeholder. -/
def orDash : Option String → String
  | none => "-"
  | some s => if s = "" then "-" else s

/-- The user_idt string computed inside to_dict (context.py lines 140-145):
the five identity fields space-joined in fixed order, each rendered
through the falsy-to-placeholder substitution. -/
def RequestContext.user_idt (ctx : RequestContext) : String :=
  orDash ctx.user ++ " " ++ orDash ctx.tenant ++ " " ++ orDash ctx.domain ++ " " ++
    orDash ctx.user_domain ++ " " ++ orDash ctx.project_domain

/-- RequestContext.to_dict (context.py lines 138-160), as the ordered
key-value list the Python dict literal produces. -/
def RequestContext.to_dict (ctx : RequestContext) : List (String × PyValue) :=
  [("user", optStr ctx.user),
   ("tenant", optStr ctx.tenant),
   ("domain", optStr ctx.domain),
   ("user_domain", optStr ctx.user_domain),
   ("project_domain", optStr ctx.project_domain),
   ("is_admin", PyValue.vBool ctx.is_admin),
   ("read_only", PyValue.vBool ctx.read_only),
   ("show_deleted", PyValue.vBool ctx.show_deleted),
   ("auth_token", optStr ctx.auth_token),
   ("request_id", PyValue.vStr ctx.request_id),
   ("resource_uuid", optStr ctx.resource_uuid),
   ("roles", PyValue.vList ctx.roles),
   ("user_identity", PyValue.vStr ctx.user_idt),
   ("is_admin_project", PyValue.vBool ctx.is_admin_project)]

/-- The display-name dictionary built first inside get_logging_values
(context.py lines 164-168). -/
def RequestContext.logging_display (ctx : RequestContext) : List (String × PyValue) :=
  [("user_name", optStr ctx.user_name),
   ("project_name", optStr ctx.project_name),
   ("domain_name", optStr ctx.domain_name),
   ("user_domain_name", optStr ctx.user_domain_name),
   ("project_domain_name", optStr ctx.project_domain_name)]

/-- Python dict item assignment d[k] = v on an ordered key-value list: an
existing key keeps its position and gets the new value, a new key is
appended at the end. -/
def dictSet (d : List (String × PyValue)) (k : String) (v : PyValue) :
    List (String × PyValue) :=
  if (List.lookup k d).isSome then
    d.map (fun p => if p.1 = k then (p.1, v) else p)
  else
    d ++ [(k, v)]

/-- Python dict.update(other): item assignment for each entry of other in
order. -/
def dictUpdate (d other : List (String × PyValue)) : List (String × PyValue) :=
  other.foldl (fun acc p => dictSet acc p.1 p.2) d

/-- RequestContext.get_logging_values (context.py lines 162-170): the
display-name dictionary updated with the full to_dict result, so on a key
collision the to_dict entry would win; the two key sets are disjoint. -/
def RequestContext.get_logging_values (ctx : RequestContext) : List (String × PyValue) :=
  dictUpdate ctx.logging_display ctx.to_dict

/-- Reads a Python value as an optional string the way the constructor
receives it from values.get(key): a stored None and a missing key are the
same to the constructor. -/
def pyToOptStr : PyValue → Option String
  | PyValue.vStr s => some s
  | _ => none

/-- Reads a Python value as a bool with a default, the way the constructor
receives values.get(key, default) for the three bool fields. -/
def pyToBool (d : Bool) : PyValue → Bool
  | PyValue.vBool b => b
  | _ => d

/-- Reads a Python value as an optional list of strings, the way the
constructor receives values.get(key) for roles. -/
def pyToStrList : PyValue → Option (List String)
  | PyValue.vList l => some l
  | _ => none

/-- values.get(k) interpreted as an optional string. -/
def getOptStr (values : List (String × PyValue)) (k : String) : Option String :=
  match List.lookup k values with
  | some v => pyToOptStr v
  | none => none

/-- values.get(k, d) interpreted as a bool. -/
def getBool (values : List (String × PyValue)) (k : String) (d : Bool) : Bool :=
  match List.lookup k values with
  | some v => pyToBool d v
  | none => d

/-- values.get(k) interpreted as an optional list of strings. -/
def getStrList (values : List (String × PyValue)) (k : String) : Option (List String) :=
  match List.lookup k values with
  | some v => pyToStrList v
  | none => none

/-- RequestContext.from_dict (context.py lines 172-195) applied with no
keyword overrides, so every kwargs.setdefault line reduces to reading the
values mapping with the documented default; the result delegates to the
constructor, hence to RequestContext.init with the default overwrite. -/
def RequestContext.from_dict (u : String) (values : List (String × PyValue))
    (store : Option RequestContext) : RequestContext × Option RequestContext :=
  RequestContext.init u
    { auth_token := getOptStr values "auth_token"
      user := getOptStr values "user"
      tenant := getOptStr values "tenant"
      domain := getOptStr values "domain"
      user_domain := getOptStr values "user_domain"
      project_domain := getOptStr values "project_domain"
      is_admin := getBool values "is_admin" false
      read_only := getBool values "read_only" false
      show_deleted := getBool values "show_deleted" false
      request_id := getOptStr values "request_id"
      resource_uuid := getOptStr values "resource_uuid"
      roles := getStrList values "roles"
      user_name := getOptStr values "user_name"
      project_name := getOptStr values "project_name"
      domain_name := getOptStr values "domain_name"
      user_domain_name := getOptStr values "user_domain_name"
      project_domain_name := getOptStr values "project_domain_name"
      is_admin_project := getBool values "is_admin_project" true }
    store

/-- The header discovery table _ENVIRON_HEADERS (context.py lines 40-55). -/
def ENVIRON_HEADERS : List (String × List String) :=
  [("auth_token", ["HTTP_X_AUTH_TOKEN", "HTTP_X_STORAGE_TOKEN"]),
   ("user", ["HTTP_X_USER_ID", "HTTP_X_USER"]),
   ("tenant", ["HTTP_X_PROJECT_ID", "HTTP_X_TENANT_ID", "HTTP_X_TENANT"]),
   ("user_domain", ["HTTP_X_USER_DOMAIN_ID"]),
   ("project_domain", ["HTTP_X_PROJECT_DOMAIN_ID"]),
   ("user_name", ["HTTP_X_USER_NAME"]),
   ("project_name", ["HTTP_X_PROJECT_NAME", "HTTP_X_TENANT_NAME"]),
   ("user_domain_name", ["HTTP_X_USER_DOMAIN_NAME"]),
   ("project_domain_name", ["HTTP_X_PROJECT_DOMAIN_NAME"]),
   ("request_id", ["openstack.request_id"])]

/-- The candidate-key list the discovery table holds for a field. -/
def headerKeys (field : String) : List String :=
  (List.lookup field ENVIRON_HEADERS).getD []

/-- The inner loop of from_environ (context.py lines 216-219): the value of
the first candidate key present in the environment, if any. -/
def resolveHeader (environ : List (String × String)) : List String → Option String
  | [] => none
  | v :: rest =>
    match List.lookup v environ with
    | some x => some x
    | none => resolveHeader environ rest

/-- One iteration of the from_environ header loop for one field: a field
already present in kwargs is skipped, otherwise the first present
candidate key supplies the value (context.py lines 212-219). -/
def resolveField (ov : Option (Option String)) (environ : List (String × String))
    (keys : List String) : Option String :=
  match ov with
  | some v => v
  | none => resolveHeader environ keys

/-- Splitting a character list at every occurrence of the separator, with
Python str.split semantics: the result always has one more piece than
there are separators, so the empty input gives one empty piece. -/
def splitChar (c : Char) : List Char → List (List Char)
  | [] => [[]]
  | x :: rest =>
    if x = c then [] :: splitChar c rest
    else
      match splitChar c rest with
      | piece :: more => (x :: piece) :: more
      | [] => [[x]]

/-- Python str.split applied with a comma separator, modelled structurally
on the character data of the string so it is kernel-executable. -/
def pySplitComma (s : String) : List String :=
  (splitChar ',' s.data).map (fun l => String.mk l)

/-- Python str.strip with no argument: surrounding whitespace removed from
both ends. -/
def pyStrip (s : String) : String :=
  String.mk (((s.data.dropWhile Char.isWhitespace).reverse.dropWhile
    Char.isWhitespace).reverse)

/-- Python str.lower, modelled on the character data; character lowering
follows the ASCII rule, which agrees with Python on every string the
module compares against the all-ASCII literal true. -/
def pyLower (s : String) : String :=
  String.mk (s.data.map Char.toLower)

/-- The roles resolution of from_environ (context.py lines 221-224): the
HTTP_X_ROLES value with HTTP_X_ROLE as fallback, split on commas with each
piece stripped, and the empty list when the result of the lookup is falsy
(absent or the empty string). -/
def resolveRoles (environ : List (String × String)) : List String :=
  let found : Option String :=
    match List.lookup "HTTP_X_ROLES" environ with
    | some s => some s
    | none => List.lookup "HTTP_X_ROLE" environ
  match found with
  | none => []
  | some s => if s = "" then [] else (pySplitComma s).map (fun r => pyStrip r)

/-- The is_admin_project resolution of from_environ (context.py lines
226-231): the HTTP_X_IS_ADMIN_PROJECT value, defaulting to the string
true, lower-cased and compared with the string true. -/
def resolveIsAdminProject (environ : List (String × String)) : Bool :=
  let s := match List.lookup "HTTP_X_IS_ADMIN_PROJECT" environ with
    | some s => s
    | none => "true"
  pyLower s == "true"

/-- The keyword overrides a caller may pass to from_environ; each field is
wrapped in one more Option recording whether the keyword was present,
because presence alone suppresses resolution from the environment. -/
structure EnvKwargs where
  auth_token : Option (Option String) := none
  user : Option (Option String) := none
  tenant : Option (Option String) := none
  domain : Option (Option String) := none
  user_domain : Option (Option String) := none
  project_domain : Option (Option String) := none
  user_name : Option (Option String) := none
  project_name : Option (Option String) := none
  domain_name : Option (Option String) := none
  user_domain_name : Option (Option String) := none
  project_domain_name : Option (Option String) := none
  request_id : Option (Option String) := none
  resource_uuid : Option (Option String) := none
  is_admin : Option Bool := none
  read_only : Option Bool := none
  show_deleted : Option Bool := none
  overwrite : Option Bool := none
  roles : Option (Option (List String)) := none
  is_admin_project : Option Bool := none
deriving DecidableEq

/-- RequestContext.from_environ (context.py lines 197-233): each field of
the discovery table is resolved from the environment unless overridden,
roles and is_admin_project get their dedicated resolutions, the remaining
constructor arguments pass through from the overrides, and the result
delegates to the constructor. -/
def RequestContext.from_environ (u : String) (environ : List (String × String))
    (kw : EnvKwargs) (store : Option RequestContext) :
    RequestContext × Option RequestContext :=
  RequestContext.init u
    { auth_token := resolveField kw.auth_token environ (headerKeys "auth_token")
      user := resolveField kw.user environ (headerKeys "user")
      tenant := resolveField kw.tenant environ (headerKeys "tenant")
      domain := kw.domain.getD none
      user_domain := resolveField kw.user_domain environ (headerKeys "user_domain")
      project_domain := resolveField kw.project_domain environ (headerKeys "project_domain")
      user_name := resolveField kw.user_name environ (headerKeys "user_name")
      project_name := resolveField kw.project_name environ (headerKeys "project_name")
      domain_name := kw.domain_name.getD none
      user_domain_name := resolveField kw.user_domain_name environ (headerKeys "user_domain_name")
      project_domain_name :=
        resolveField kw.project_domain_name environ (headerKeys "project_domain_name")
      request_id := resolveField kw.request_id environ (headerKeys "request_id")
      resource_uuid := kw.resource_uuid.getD none
      is_admin := kw.is_admin.getD false
      read_only := kw.read_only.getD false
      show_deleted := kw.show_deleted.getD false
      overwrite := kw.overwrite.getD true
      roles := match kw.roles with
        | some r => r
        | none => some (resolveRoles environ)
      is_admin_project := match kw.is_admin_project with
        | some b => b
        | none => resolveIsAdminProject environ }
    store

/-- get_admin_context (context.py lines 236-243): a context with no
identity, is_admin true, the given show_deleted and overwrite false. -/
def get_admin_context (u : String) (show_deleted : Bool)
    (store : Option RequestContext) : RequestContext × Option RequestContext :=
  RequestContext.init u
    { auth_token := none
      tenant := none
      is_admin := true
      show_deleted := show_deleted
      overwrite := false }
    store

/-- A Python object as seen by the argument scanner: a RequestContext
instance or any other value, tagged with an opaque label. -/
inductive PyObject where
  | ctx : RequestContext → PyObject
  | other : String → PyObject
deriving DecidableEq

/-- The isinstance(arg, RequestContext) test together with the returned
value: the context an object is, if it is one. -/
def asCtx : PyObject → Option RequestContext
  | PyObject.ctx c => some c
  | PyObject.other _ => none

/-- The scanning loop of get_context_from_function_and_args (context.py
lines 253-257): the first element of the chained sequence that is a
RequestContext instance. -/
def findCtx : List PyObject → Option RequestContext
  | [] => none
  | x :: rest =>
    match asCtx x with
    | some c => some c
    | none => findCtx rest

/-- get_context_from_function_and_args (context.py lines 246-257): scans
the keyword values first, then the positional arguments; the function
argument is unused by the source and kept as an opaque name. -/
def get_context_from_function_and_args (_function : String) (args : List PyObject)
    (kwargs : List (String × PyObject)) : Option RequestContext :=
  findCtx (kwargs.map Prod.snd ++ args)

/-- A concrete context built from the default constructor arguments. -/
def ctx0 : RequestContext := RequestContext.mkCtx "u0" {}

/-- A concrete context whose user and tenant hold the empty string. -/
def ctxE : RequestContext :=
  RequestContext.mkCtx "u1" { user := some "", tenant := some "" }

/-- The falsy-list normalisation of the constructor is the identity on
lists: the Python expression roles or [] returns the given list whether
or not it is empty. -/
theorem roles_or_empty (l : List String) : (if l.isEmpty then [] else l) = l := by
  cases l <;> rfl

/-- Reading back an optional string stored through optStr recovers it. -/
theorem pyToOptStr_optStr (o : Option String) : pyToOptStr (optStr o) = o := by
  cases o <;> rfl

/-- A generated request id is never the empty string. -/
theorem generate_request_id_ne_empty (v : String) : generate_request_id v ≠ "" := by
  intro h
  have h2 : ("req-" ++ v).length = ("" : String).length := congrArg String.length h
  rw [String.length_append] at h2
  rw [show ("req-" : String).length = 4 from rfl] at h2
  rw [show ("" : String).length = 0 from rfl] at h2
  omega

/-- A generated request id carries the fixed req- prefix. -/
theorem generate_request_id_prefixed (v : String) :
    ("req-" : String).data.isPrefixOf (generate_request_id v).data = true := by
  simp [generate_request_id]

/-- Claim C2: a newly constructed RequestContext is written to the
execution-scope slot exactly when overwrite is true or the slot was empty
before construction; in particular get_admin_context, which passes
overwrite false, never replaces a stored context and is published into an
empty slot. -/
theorem init_publish_conditions (u : String) (a : CtorArgs) (store : Option RequestContext) :
    ((RequestContext.init u a store).2 =
      if a.overwrite || store.isNone then some (RequestContext.init u a store).1 else store)
    ∧ (∀ c : RequestContext, a.overwrite = false → store = some c →
        (RequestContext.init u a store).2 = store)
    ∧ (store = none →
        (RequestContext.init u a store).2 = some (RequestContext.init u a store).1)
    ∧ (∀ sd : Bool, ∀ c : RequestContext, store = some c →
        (get_admin_context u sd store).2 = store)
    ∧ (∀ sd : Bool, (get_admin_context u sd none).2 = some (get_admin_context u sd none).1) := by
  refine ⟨rfl, ?_, ?_, ?_, ?_⟩
  · intro c ho hs
    subst hs
    simp [RequestContext.init, ho]
  · intro hs
    subst hs
    simp [RequestContext.init]
  · intro sd c hs
    subst hs
    simp [get_admin_context, RequestContext.init]
  · intro sd
    rfl

/-- Witness for claim C2 at a concrete slot and context. -/
theorem init_publish_conditions_witness :
    (get_admin_context "u2" false (some ctx0)).2 = some ctx0 :=
  (init_publish_conditions "u2" {} (some ctx0)).2.2.2.1 false ctx0 rfl

/-- Claim C6: when the request_id argument is absent or the empty string
the stored request_id is non-empty and begins with the fixed req- prefix,
and every construction stores a non-empty request_id. -/
theorem request_id_generation_spec (u : String) (a : CtorArgs) (store : Option RequestContext) :
    ((a.request_id = none ∨ a.request_id = some "") →
      ("req-" : String).data.isPrefixOf ((RequestContext.init u a store).1.request_id).data = true
      ∧ (RequestContext.init u a store).1.request_id ≠ "")
    ∧ (RequestContext.init u a store).1.request_id ≠ "" := by
  have h1 : (RequestContext.init u a store).1 = RequestContext.mkCtx u a := rfl
  constructor
  · rintro (h | h) <;>
      (rw [h1]
       constructor
       · show ("req-" : String).data.isPrefixOf (RequestContext.mkCtx u a).request_id.data = true
         simp only [RequestContext.mkCtx, h]
         exact generate_request_id_prefixed u
       · show (RequestContext.mkCtx u a).request_id ≠ ""
         simp only [RequestContext.mkCtx, h]
         exact generate_request_id_ne_empty u)
  · rw [h1]
    rcases ha : a.request_id with _ | s
    · show (RequestContext.mkCtx u a).request_id ≠ ""
      simp only [RequestContext.mkCtx, ha]
      exact generate_request_id_ne_empty u
    · by_cases hs : s = ""
      · subst hs
        show (RequestContext.mkCtx u a).request_id ≠ ""
        simp only [RequestContext.mkCtx, ha]
        exact generate_request_id_ne_empty u
      · show (RequestContext.mkCtx u a).request_id ≠ ""
        simp only [RequestContext.mkCtx, ha]
        simp [hs]

/-- Witness for claim C6 at a concrete construction without request_id. -/
theorem request_id_generation_spec_witness :
    ("req-" : String).data.isPrefixOf
      ((RequestContext.init "u6" {} none).1.request_id).data = true
    ∧ (RequestContext.init "u6" {} none).1.request_id ≠ "" :=
  (request_id_generation_spec "u6" {} none).1 (Or.inl rfl)

/-- Claim C3: with no tenant override, from_environ resolves tenant from
the first present key among HTTP_X_PROJECT_ID, HTTP_X_TENANT_ID and
HTTP_X_TENANT, in that order; a lower-priority key is used only when every
higher-priority key is absent, and tenant stays absent when all three are
absent. -/
theorem from_environ_tenant_precedence (u : String) (environ : List (String × String))
    (kw : EnvKwargs) (store : Option RequestContext) (h : kw.tenant = none) :
    (∀ v : String, List.lookup "HTTP_X_PROJECT_ID" environ = some v →
      (RequestContext.from_environ u environ kw store).1.tenant = some v)
    ∧ (∀ v : String, List.lookup "HTTP_X_PROJECT_ID" environ = none →
        List.lookup "HTTP_X_TENANT_ID" environ = some v →
        (RequestContext.from_environ u environ kw store).1.tenant = some v)
    ∧ (∀ v : String, List.lookup "HTTP_X_PROJECT_ID" environ = none →
        List.lookup "HTTP_X_TENANT_ID" environ = none →
        List.lookup "HTTP_X_TENANT" environ = some v →
        (RequestContext.from_environ u environ kw store).1.tenant = some v)
    ∧ (List.lookup "HTTP_X_PROJECT_ID" environ = none →
        List.lookup "HTTP_X_TENANT_ID" environ = none →
        List.lookup "HTTP_X_TENANT" environ = none →
        (RequestContext.from_environ u environ kw store).1.tenant = none) := by
  have ht : (RequestContext.from_environ u environ kw store).1.tenant =
      resolveField kw.tenant environ
        ["HTTP_X_PROJECT_ID", "HTTP_X_TENANT_ID", "HTTP_X_TENANT"] := rfl
  rw [h] at ht
  refine ⟨?_, ?_, ?_, ?_⟩
  · intro v h1
    rw [ht]
    simp [resolveField, resolveHeader, h1]
  · intro v h1 h2
    rw [ht]
    simp [resolveField, resolveHeader, h1, h2]
  · intro v h1 h2 h3
    rw [ht]
    simp [resolveField, resolveHeader, h1, h2, h3]
  · intro h1 h2 h3
    rw [ht]
    simp [resolveField, resolveHeader, h1, h2, h3]

/-- Witness for claim C3: a source mapping holding only the legacy
HTTP_X_TENANT key resolves tenant to its value. -/
theorem from_environ_tenant_precedence_witness :
    (RequestContext.from_environ "u3" [("HTTP_X_TENANT", "t1")] {} none).1.tenant = some "t1" :=
  (from_environ_tenant_precedence "u3" [("HTTP_X_TENANT", "t1")] {} none rfl).2.2.1 "t1"
    rfl rfl rfl

/-- Claim C4 counterexample: with HTTP_X_ROLES present holding the empty
string, the code resolves roles to the empty sequence, whereas splitting
the found string on commas and trimming each piece yields a one-element
sequence holding the empty string, so the claimed resolution rule fails
at this input. -/
theorem from_environ_roles_empty_string_cex :
    (RequestContext.from_environ "u4c" [("HTTP_X_ROLES", "")] {} none).1.roles = []
    ∧ (pySplitComma "").map (fun r => pyStrip r) = [""]
    ∧ ([] : List String) ≠ [""] := by
  refine ⟨?_, ?_, ?_⟩ <;> decide

/-- Claim C4 as amended: with no roles override, roles is resolved by
looking up HTTP_X_ROLES with HTTP_X_ROLE as fallback; a found non-empty
string is split on commas with surrounding whitespace trimmed from each
piece, while an absent key, or a found empty string, yields the empty
sequence; in particular the source value admin comma space member space
comma ops yields the ordered sequence admin, member, ops. -/
theorem from_environ_roles_resolution (u : String) (environ : List (String × String))
    (kw : EnvKwargs) (store : Option RequestContext) (h : kw.roles = none) :
    (∀ s : String, List.lookup "HTTP_X_ROLES" environ = some s → s ≠ "" →
      (RequestContext.from_environ u environ kw store).1.roles =
        (pySplitComma s).map (fun r => pyStrip r))
    ∧ (∀ s : String, List.lookup "HTTP_X_ROLES" environ = none →
        List.lookup "HTTP_X_ROLE" environ = some s → s ≠ "" →
        (RequestContext.from_environ u environ kw store).1.roles =
          (pySplitComma s).map (fun r => pyStrip r))
    ∧ (List.lookup "HTTP_X_ROLES" environ = some "" →
        (RequestContext.from_environ u environ kw store).1.roles = [])
    ∧ (List.lookup "HTTP_X_ROLES" environ = none →
        List.lookup "HTTP_X_ROLE" environ = some "" →
        (RequestContext.from_environ u environ kw store).1.roles = [])
    ∧ (List.lookup "HTTP_X_ROLES" environ = none →
        List.lookup "HTTP_X_ROLE" environ = none →
        (RequestContext.from_environ u environ kw store).1.roles = [])
    ∧ ((RequestContext.from_environ "uc" [("HTTP_X_ROLES", "admin, member ,ops")]
        {} none).1.roles = ["admin", "member", "ops"]) := by
  have hr0 : (RequestContext.from_environ u environ kw store).1.roles =
      (match (match kw.roles with
              | some r => r
              | none => some (resolveRoles environ)) with
       | none => []
       | some l => if l.isEmpty then [] else l) := rfl
  rw [h] at hr0
  have hr : (RequestContext.from_environ u environ kw store).1.roles =
      resolveRoles environ := by
    rw [hr0]
    show (if (resolveRoles environ).isEmpty then [] else resolveRoles environ) =
      resolveRoles environ
    exact roles_or_empty _
  refine ⟨?_, ?_, ?_, ?_, ?_, by decide⟩
  · intro s h1 hs
    rw [hr]
    simp [resolveRoles, h1, hs]
  · intro s h1 h2 hs
    rw [hr]
    simp [resolveRoles, h1, h2, hs]
  · intro h1
    rw [hr]
    simp [resolveRoles, h1]
  · intro h1 h2
    rw [hr]
    simp [resolveRoles, h1, h2]
  · intro h1 h2
    rw [hr]
    simp [resolveRoles, h1, h2]

/-- Witness for the amended claim C4 at the concrete roles header. -/
theorem from_environ_roles_resolution_witness :
    (RequestContext.from_environ "uc" [("HTTP_X_ROLES", "admin, member ,ops")]
      {} none).1.roles = ["admin", "member", "ops"] :=
  (from_environ_roles_resolution "uc" [("HTTP_X_ROLES", "admin, member ,ops")] {} none
    rfl).2.2.2.2.2

/-- Claim C5: with no is_admin_project override, the field is the
case-insensitive comparison of the HTTP_X_IS_ADMIN_PROJECT value with the
string true; absence of the key yields true, and any found string whose
lower-casing differs from true yields false, with no failure path. -/
theorem from_environ_is_admin_project_resolution (u : String)
    (environ : List (String × String)) (kw : EnvKwargs) (store : Option RequestContext)
    (h : kw.is_admin_project = none) :
    (∀ s : String, List.lookup "HTTP_X_IS_ADMIN_PROJECT" environ = some s →
      (RequestContext.from_environ u environ kw store).1.is_admin_project =
        (pyLower s == "true"))
    ∧ (List.lookup "HTTP_X_IS_ADMIN_PROJECT" environ = none →
        (RequestContext.from_environ u environ kw store).1.is_admin_project = true)
    ∧ (∀ s : String, List.lookup "HTTP_X_IS_ADMIN_PROJECT" environ = some s →
        pyLower s ≠ "true" →
        (RequestContext.from_environ u environ kw store).1.is_admin_project = false) := by
  have hb : (RequestContext.from_environ u environ kw store).1.is_admin_project =
      (match kw.is_admin_project with
       | some b => b
       | none => resolveIsAdminProject environ) := rfl
  rw [h] at hb
  have hb2 : (RequestContext.from_environ u environ kw store).1.is_admin_project =
      resolveIsAdminProject environ := by
    rw [hb]
  refine ⟨?_, ?_, ?_⟩
  · intro s h1
    rw [hb2]
    simp [resolveIsAdminProject, h1]
  · intro h1
    rw [hb2]
    simp only [resolveIsAdminProject, h1]
    decide
  · intro s h1 hne
    rw [hb2]
    simp only [resolveIsAdminProject, h1]
    exact beq_eq_false_iff_ne.mpr hne

/-- Witness for claim C5: a malformed boolean string resolves to false. -/
theorem from_environ_is_admin_project_resolution_witness :
    (RequestContext.from_environ "u5" [("HTTP_X_IS_ADMIN_PROJECT", "MAYBE")]
      {} none).1.is_admin_project = false :=
  (from_environ_is_admin_project_resolution "u5" [("HTTP_X_IS_ADMIN_PROJECT", "MAYBE")]
    {} none rfl).2.2 "MAYBE" rfl (by decide)

/-- Claim C8: the user_identity entry of to_dict is the five identity
fields user, tenant, domain, user_domain, project_domain in that fixed
order, space-joined, each rendered through the falsy-to-placeholder
substitution, so an absent field appears as the single placeholder
character and a present non-empty field appears verbatim; a context with
all five fields unset yields the placeholder string repeated five times.
The substitution also maps a degenerate empty-string field to the
placeholder, the subject of the companion empty-string property. -/
theorem to_dict_user_identity_format (ctx : RequestContext) :
    (List.lookup "user_identity" ctx.to_dict =
      some (PyValue.vStr (orDash ctx.user ++ " " ++ orDash ctx.tenant ++ " " ++
        orDash ctx.domain ++ " " ++ orDash ctx.user_domain ++ " " ++
        orDash ctx.project_domain)))
    ∧ orDash none = "-"
    ∧ (∀ s : String, s ≠ "" → orDash (some s) = s)
    ∧ (ctx.user = none → ctx.tenant = none → ctx.domain = none →
        ctx.user_domain = none → ctx.project_domain = none →
        List.lookup "user_identity" ctx.to_dict = some (PyValue.vStr "- - - - -")) := by
  refine ⟨rfl, rfl, ?_, ?_⟩
  · intro s hs
    simp [orDash, hs]
  · intro h1 h2 h3 h4 h5
    have hu : ctx.user_idt = "- - - - -" := by
      unfold RequestContext.user_idt
      rw [h1, h2, h3, h4, h5]
      rfl
    have hl : List.lookup "user_identity" ctx.to_dict =
        some (PyValue.vStr ctx.user_idt) := rfl
    rw [hl, hu]

/-- Witness for claim C8 at the all-unset context. -/
theorem to_dict_user_identity_format_witness :
    List.lookup "user_identity" ctx0.to_dict = some (PyValue.vStr "- - - - -") :=
  (to_dict_user_identity_format ctx0).2.2.2 rfl rfl rfl rfl rfl

/-- Claim C10: an identity field holding the empty string renders in the
user_identity string exactly as an absent field does, while the field
entry itself still exports the empty string. -/
theorem to_dict_empty_string_as_dash (ctx : RequestContext) :
    (ctx.user = some "" →
      List.lookup "user_identity" ctx.to_dict =
        List.lookup "user_identity" ({ ctx with user := none } : RequestContext).to_dict
      ∧ List.lookup "user" ctx.to_dict = some (PyValue.vStr ""))
    ∧ (ctx.tenant = some "" →
      List.lookup "user_identity" ctx.to_dict =
        List.lookup "user_identity" ({ ctx with tenant := none } : RequestContext).to_dict
      ∧ List.lookup "tenant" ctx.to_dict = some (PyValue.vStr ""))
    ∧ (ctx.domain = some "" →
      List.lookup "user_identity" ctx.to_dict =
        List.lookup "user_identity" ({ ctx with domain := none } : RequestContext).to_dict
      ∧ List.lookup "domain" ctx.to_dict = some (PyValue.vStr ""))
    ∧ (ctx.user_domain = some "" →
      List.lookup "user_identity" ctx.to_dict =
        List.lookup "user_identity"
          ({ ctx with user_domain := none } : RequestContext).to_dict
      ∧ List.lookup "user_domain" ctx.to_dict = some (PyValue.vStr ""))
    ∧ (ctx.project_domain = some "" →
      List.lookup "user_identity" ctx.to_dict =
        List.lookup "user_identity"
          ({ ctx with project_domain := none } : RequestContext).to_dict
      ∧ List.lookup "project_domain" ctx.to_dict = some (PyValue.vStr "")) := by
  refine ⟨?_, ?_, ?_, ?_, ?_⟩ <;>
    (intro h
     constructor
     · show some (PyValue.vStr ctx.user_idt) = _
       unfold RequestContext.user_idt
       rw [h]
       rfl
     · show some (optStr _) = some (PyValue.vStr "")
       rw [h]
       rfl)

/-- Witness for claim C10 at a context whose user is the empty string. -/
theorem to_dict_empty_string_as_dash_witness :
    List.lookup "user_identity" ctxE.to_dict =
      List.lookup "user_identity" ({ ctxE with user := none } : RequestContext).to_dict
    ∧ List.lookup "user" ctxE.to_dict = some (PyValue.vStr "") :=
  (to_dict_empty_string_as_dash ctxE).1 rfl

/-- Claim C7: reconstructing a context by feeding to_dict output to
from_dict preserves every field that is both a constructor parameter and
a to_dict key, while the five display-name fields come back absent. -/
theorem from_dict_to_dict_roundtrip (u : String) (ctx : RequestContext)
    (store : Option RequestContext) (h : ctx.request_id ≠ "") :
    ((RequestContext.from_dict u ctx.to_dict store).1.auth_token = ctx.auth_token)
    ∧ ((RequestContext.from_dict u ctx.to_dict store).1.user = ctx.user)
    ∧ ((RequestContext.from_dict u ctx.to_dict store).1.tenant = ctx.tenant)
    ∧ ((RequestContext.from_dict u ctx.to_dict store).1.domain = ctx.domain)
    ∧ ((RequestContext.from_dict u ctx.to_dict store).1.user_domain = ctx.user_domain)
    ∧ ((RequestContext.from_dict u ctx.to_dict store).1.project_domain = ctx.project_domain)
    ∧ ((RequestContext.from_dict u ctx.to_dict store).1.is_admin = ctx.is_admin)
    ∧ ((RequestContext.from_dict u ctx.to_dict store).1.read_only = ctx.read_only)
    ∧ ((RequestContext.from_dict u ctx.to_dict store).1.show_deleted = ctx.show_deleted)
    ∧ ((RequestContext.from_dict u ctx.to_dict store).1.request_id = ctx.request_id)
    ∧ ((RequestContext.from_dict u ctx.to_dict store).1.resource_uuid = ctx.resource_uuid)
    ∧ ((RequestContext.from_dict u ctx.to_dict store).1.roles = ctx.roles)
    ∧ ((RequestContext.from_dict u ctx.to_dict store).1.is_admin_project =
        ctx.is_admin_project)
    ∧ ((RequestContext.from_dict u ctx.to_dict store).1.user_name = none)
    ∧ ((RequestContext.from_dict u ctx.to_dict store).1.project_name = none)
    ∧ ((RequestContext.from_dict u ctx.to_dict store).1.domain_name = none)
    ∧ ((RequestContext.from_dict u ctx.to_dict store).1.user_domain_name = none)
    ∧ ((RequestContext.from_dict u ctx.to_dict store).1.project_domain_name = none) := by
  refine ⟨?_, ?_, ?_, ?_, ?_, ?_, rfl, rfl, rfl, ?_, ?_, ?_, rfl,
    rfl, rfl, rfl, rfl, rfl⟩
  · show pyToOptStr (optStr ctx.auth_token) = ctx.auth_token
    exact pyToOptStr_optStr _
  · show pyToOptStr (optStr ctx.user) = ctx.user
    exact pyToOptStr_optStr _
  · show pyToOptStr (optStr ctx.tenant) = ctx.tenant
    exact pyToOptStr_optStr _
  · show pyToOptStr (optStr ctx.domain) = ctx.domain
    exact pyToOptStr_optStr _
  · show pyToOptStr (optStr ctx.user_domain) = ctx.user_domain
    exact pyToOptStr_optStr _
  · show pyToOptStr (optStr ctx.project_domain) = ctx.project_domain
    exact pyToOptStr_optStr _
  · show (if ctx.request_id = "" then generate_request_id u else ctx.request_id) =
      ctx.request_id
    simp [h]
  · show pyToOptStr (optStr ctx.resource_uuid) = ctx.resource_uuid
    exact pyToOptStr_optStr _
  · show (if ctx.roles.isEmpty then [] else ctx.roles) = ctx.roles
    exact roles_or_empty _

/-- Witness for claim C7 at a concrete context. -/
theorem from_dict_to_dict_roundtrip_witness :
    (RequestContext.from_dict "w7" ctx0.to_dict none).1.request_id = ctx0.request_id :=
  (from_dict_to_dict_roundtrip "w7" ctx0 none (by decide)).2.2.2.2.2.2.2.2.2.1

/-- A successful lookup means the key occurs in the key list. -/
theorem lookup_mem_keys {l : List (String × PyValue)} {k : String} {v : PyValue}
    (h : List.lookup k l = some v) : k ∈ l.map Prod.fst := by
  have h2 : (List.lookup k l).isSome := by rw [h]; rfl
  rw [List.lookup_isSome_iff] at h2
  obtain ⟨p, hp, he⟩ := h2
  have hk : k = p.1 := by simpa using he
  exact List.mem_map.mpr ⟨p, hp, hk.symm⟩

/-- Assigning a fresh key to a dictionary appends the pair at the end. -/
theorem dictSet_not_mem {d : List (String × PyValue)} {k : String} {v : PyValue}
    (h : k ∉ d.map Prod.fst) : dictSet d k v = d ++ [(k, v)] := by
  have hnone : List.lookup k d = none := by
    rw [List.lookup_eq_none_iff]
    intro p hp
    rw [bne_iff_ne]
    intro he
    exact h (List.mem_map.mpr ⟨p, hp, he.symm⟩)
  simp [dictSet, hnone]

/-- Updating a dictionary with one whose keys are fresh and mutually
distinct appends the entries in order. -/
theorem dictUpdate_append (other : List (String × PyValue)) :
    ∀ d : List (String × PyValue),
      (∀ p ∈ other, p.1 ∉ d.map Prod.fst) →
      (other.map Prod.fst).Nodup →
      dictUpdate d other = d ++ other := by
  induction other with
  | nil =>
    intro d _ _
    simp [dictUpdate]
  | cons p t ih =>
    intro d hdisj hnodup
    have h1 : p.1 ∉ d.map Prod.fst := hdisj p (List.mem_cons_self p t)
    have step : dictUpdate d (p :: t) = dictUpdate (dictSet d p.1 p.2) t := rfl
    rw [step, dictSet_not_mem h1]
    simp only [List.map_cons, List.nodup_cons] at hnodup
    have hdisj2 : ∀ q ∈ t, q.1 ∉ (d ++ [(p.1, p.2)]).map Prod.fst := by
      intro q hq
      simp only [List.map_append, List.mem_append, List.map_cons, List.map_nil,
        List.mem_cons, List.not_mem_nil, or_false]
      rintro (hqd | hqp)
      · exact hdisj q (List.mem_cons_of_mem _ hq) hqd
      · exact hnodup.1 (by rw [← hqp]; exact List.mem_map.mpr ⟨q, hq, rfl⟩)
    rw [ih (d ++ [(p.1, p.2)]) hdisj2 hnodup.2]
    simp

/-- The combined logging dictionary is the display-name dictionary
followed by the whole to_dict dictionary. -/
theorem get_logging_values_eq (ctx : RequestContext) :
    ctx.get_logging_values = ctx.logging_display ++ ctx.to_dict := by
  have e1 : (ctx.logging_display).map Prod.fst =
      ["user_name", "project_name", "domain_name", "user_domain_name",
       "project_domain_name"] := rfl
  have e2 : (ctx.to_dict).map Prod.fst =
      ["user", "tenant", "domain", "user_domain", "project_domain", "is_admin",
       "read_only", "show_deleted", "auth_token", "request_id", "resource_uuid",
       "roles", "user_identity", "is_admin_project"] := rfl
  apply dictUpdate_append
  · intro p hp
    have hm : p.1 ∈ (ctx.to_dict).map Prod.fst := List.mem_map_of_mem Prod.fst hp
    rw [e2] at hm
    rw [e1]
    simp only [List.mem_cons, List.not_mem_nil, or_false] at hm
    rcases hm with h | h | h | h | h | h | h | h | h | h | h | h | h | h <;>
      (rw [h]; decide)
  · rw [e2]
    decide

/-- Claim C1: the key list of get_logging_values is the five display-name
keys followed by the to_dict keys, so its key set is their union; a key
carried by both dictionaries would keep the display-name value, and in
fact every display-name key and every to_dict key reads back its own
value in the combined mapping. -/
theorem get_logging_values_union (ctx : RequestContext) :
    ((ctx.get_logging_values).map Prod.fst =
      (ctx.logging_display).map Prod.fst ++ (ctx.to_dict).map Prod.fst)
    ∧ (∀ k : String, ∀ v w : PyValue, List.lookup k ctx.logging_display = some v →
        List.lookup k ctx.to_dict = some w →
        List.lookup k ctx.get_logging_values = some v)
    ∧ (List.lookup "user_name" ctx.get_logging_values = some (optStr ctx.user_name))
    ∧ (List.lookup "project_name" ctx.get_logging_values = some (optStr ctx.project_name))
    ∧ (List.lookup "domain_name" ctx.get_logging_values = some (optStr ctx.domain_name))
    ∧ (List.lookup "user_domain_name" ctx.get_logging_values =
        some (optStr ctx.user_domain_name))
    ∧ (List.lookup "project_domain_name" ctx.get_logging_values =
        some (optStr ctx.project_domain_name))
    ∧ (∀ k : String, ∀ w : PyValue, List.lookup k ctx.to_dict = some w →
        List.lookup k ctx.get_logging_values = some w) := by
  have e1 : (ctx.logging_display).map Prod.fst =
      ["user_name", "project_name", "domain_name", "user_domain_name",
       "project_domain_name"] := rfl
  have e2 : (ctx.to_dict).map Prod.fst =
      ["user", "tenant", "domain", "user_domain", "project_domain", "is_admin",
       "read_only", "show_deleted", "auth_token", "request_id", "resource_uuid",
       "roles", "user_identity", "is_admin_project"] := rfl
  have he := get_logging_values_eq ctx
  refine ⟨?_, ?_, ?_, ?_, ?_, ?_, ?_, ?_⟩
  · rw [he]
    exact List.map_append _ _ _
  · intro k v w h1 h2
    have m1 := lookup_mem_keys h1
    have m2 := lookup_mem_keys h2
    rw [e1] at m1
    rw [e2] at m2
    simp only [List.mem_cons, List.not_mem_nil, or_false] at m1
    rcases m1 with rfl | rfl | rfl | rfl | rfl <;> exact absurd m2 (by decide)
  · rw [he]
    rfl
  · rw [he]
    rfl
  · rw [he]
    rfl
  · rw [he]
    rfl
  · rw [he]
    rfl
  · intro k w h2
    have m2 := lookup_mem_keys h2
    rw [e2] at m2
    simp only [List.mem_cons, List.not_mem_nil, or_false] at m2
    rw [he]
    rcases m2 with rfl | rfl | rfl | rfl | rfl | rfl | rfl | rfl | rfl | rfl | rfl |
      rfl | rfl | rfl <;> exact h2

/-- Witness for claim C1 at a concrete context and key. -/
theorem get_logging_values_union_witness :
    List.lookup "roles" ctx0.get_logging_values = some (PyValue.vList ctx0.roles) :=
  (get_logging_values_union ctx0).2.2.2.2.2.2.2 "roles" (PyValue.vList ctx0.roles) rfl

/-- Unfolding equation of the scanning loop on a non-empty list. -/
theorem findCtx_cons (x : PyObject) (t : List PyObject) :
    findCtx (x :: t) =
      (match asCtx x with
       | some c => some c
       | none => findCtx t) := rfl

/-- The scan returns the absence marker exactly when no scanned value is a
RequestContext instance. -/
theorem findCtx_none_iff (l : List PyObject) :
    findCtx l = none ↔ ∀ x ∈ l, asCtx x = none := by
  induction l with
  | nil => simp [findCtx]
  | cons x t ih =>
    rw [findCtx_cons]
    cases hx : asCtx x with
    | some c => simp [hx, List.forall_mem_cons]
    | none => simp [hx, List.forall_mem_cons, ih]

/-- The scan returns the first RequestContext instance of the list. -/
theorem findCtx_first (l1 : List PyObject) (c : RequestContext) (l2 : List PyObject)
    (h : ∀ x ∈ l1, asCtx x = none) :
    findCtx (l1 ++ PyObject.ctx c :: l2) = some c := by
  induction l1 with
  | nil => rfl
  | cons x t ih =>
    have hx : asCtx x = none := h x (by simp)
    rw [List.cons_append, findCtx_cons, hx]
    exact ih (fun y hy => h y (by simp [hy]))

/-- Claim C9: the context-finding helper scans keyword-argument values
first, then positional values in order, returns the first scanned value
that is a RequestContext instance, and returns the absence marker when no
scanned value is one. -/
theorem get_context_scan_first (f : String) (args : List PyObject)
    (kwargs : List (String × PyObject)) :
    (get_context_from_function_and_args f args kwargs = none ↔
      ∀ x ∈ kwargs.map Prod.snd ++ args, asCtx x = none)
    ∧ (∀ l1 : List PyObject, ∀ c : RequestContext, ∀ l2 : List PyObject,
        kwargs.map Prod.snd ++ args = l1 ++ PyObject.ctx c :: l2 →
        (∀ x ∈ l1, asCtx x = none) →
        get_context_from_function_and_args f args kwargs = some c) := by
  constructor
  · exact findCtx_none_iff _
  · intro l1 c l2 he hnone
    unfold get_context_from_function_and_args
    rw [he]
    exact findCtx_first l1 c l2 hnone

/-- Witness for claim C9: a keyword value that is not a context is
skipped and the positional context is returned. -/
theorem get_context_scan_first_witness :
    get_context_from_function_and_args "f" [PyObject.ctx ctx0]
      [("k", PyObject.other "v")] = some ctx0 :=
  (get_context_scan_first "f" [PyObject.ctx ctx0] [("k", PyObject.other "v")]).2
    [PyObject.other "v"] ctx0 [] rfl (by decide)
